import Mathlib

/-!
# go_scyllaDb: a verification development of `main.go`

The program assembles a cluster configuration, opens a session, ensures a
keyspace and a table, inserts one fixed song and reads it back.

The database driver (`gocql`, `gocqlx`) is not part of the program.  Its
effectful operations are taken as a parameter (`Driver`): every theorem below
that quantifies over a `Driver` holds for whatever the cluster answers.  Every
call made to the driver, every log line and the release of the session are
recorded, in order, in the `trace` of a `World`.
-/

namespace GoScylla

/-! ## Configuration (`gocql.ClusterConfig`) -/

/-- Go `time.Duration`: a signed count of nanoseconds. -/
abbrev Duration := Int

/-- Go `time.Second`. -/
def Second : Duration := 1000000000

/-- The retry policies of `gocql` a `ClusterConfig.RetryPolicy` can hold. -/
inductive RetryPolicy where
  | SimpleRetryPolicy (NumRetries : Int)
  | ExponentialBackoffRetryPolicy (NumRetries : Int) (Min Max : Duration)
  deriving DecidableEq, Repr

/-- The host-selection policies of `gocql` used by the program:
`gocql.RoundRobinHostPolicy()` and `gocql.TokenAwareHostPolicy(fallback)`. -/
inductive HostSelectionPolicy where
  | RoundRobinHostPolicy
  | TokenAwareHostPolicy (fallback : HostSelectionPolicy)
  deriving DecidableEq, Repr

/-- The fields of `gocql.ClusterConfig` the program reads or writes.  The two
policies are Go interface values, `none` is the nil interface. -/
structure ClusterConfig where
  Hosts : List String
  Port : Int
  Consistency : Nat
  Timeout : Duration
  RetryPolicy : Option RetryPolicy
  HostSelectionPolicy : Option HostSelectionPolicy
  Keyspace : String
  deriving DecidableEq, Repr

/-- `gocql.NewCluster(hosts...)`: a configuration holding the given hosts; all
other fields take the driver's defaults, which are a parameter here. -/
def NewCluster (defaults : ClusterConfig) (hosts : List String) : ClusterConfig :=
  { defaults with Hosts := hosts }

/-- `CreateCluster` of `main.go`. -/
def CreateCluster (defaults : ClusterConfig) (consistency : Nat) (port : Int)
    (hosts : List String) : ClusterConfig :=
  let retryPolicy := RetryPolicy.ExponentialBackoffRetryPolicy 5 Second (10 * Second)
  let cluster := NewCluster defaults hosts
  let timeout : Duration := 5 * Second
  let cluster := { cluster with Timeout := timeout }
  let cluster := { cluster with RetryPolicy := some retryPolicy }
  let cluster := { cluster with Consistency := consistency }
  let cluster := { cluster with Port := port }
  let cluster := { cluster with
    HostSelectionPolicy := some (HostSelectionPolicy.TokenAwareHostPolicy
      HostSelectionPolicy.RoundRobinHostPolicy) }
  cluster

/-- The data-model invariant of a connection configuration as the
specification words it: hosts non-empty, minimum backoff at most the maximum
backoff, and a non-negative number of retries. -/
def ConfigInvariant (c : ClusterConfig) : Prop :=
  c.Hosts ≠ [] ∧
    match c.RetryPolicy with
    | some (RetryPolicy.ExponentialBackoffRetryPolicy n lo hi) => lo ≤ hi ∧ 0 ≤ n
    | some (RetryPolicy.SimpleRetryPolicy n) => 0 ≤ n
    | none => True

/-- A set of driver defaults used to evaluate the definitions on concrete
inputs. -/
def sampleDefaults : ClusterConfig :=
  { Hosts := [], Port := 9042, Consistency := 4, Timeout := 11 * Second,
    RetryPolicy := none, HostSelectionPolicy := none, Keyspace := "" }

/-! ## Formatting (`fmt.Sprintf`) -/

/-- What `fmt.Sprintf` appends for string arguments no verb consumed. -/
def sprintfExtra (args : List String) : List Char :=
  match args with
  | [] => []
  | _ :: _ => ("%!(EXTRA " ++ ", ".intercalate (args.map (fun a => "string=" ++ a)) ++ ")").data

/-- The expansion of a format over its characters: each `%s` verb is replaced
by the next argument, and by `%!s(MISSING)` when the arguments are used up;
`%%` is a percent sign. -/
def sprintfChars : List Char → List String → List Char
  | [], args => sprintfExtra args
  | '%' :: 's' :: rest, a :: args => a.data ++ sprintfChars rest args
  | '%' :: 's' :: rest, [] => "%!s(MISSING)".data ++ sprintfChars rest []
  | '%' :: '%' :: rest, args => '%' :: sprintfChars rest args
  | c :: rest, args => c :: sprintfChars rest args

/-- Go `fmt.Sprintf` for the formats of this program: the only verbs are `%s`
and `%%`, and every argument is a string. -/
def Sprintf (format : String) (args : List String) : String :=
  ⟨sprintfChars format.data args⟩

/-! ## Records, statements and table metadata (`gocqlx`) -/

/-- A `gocql.UUID`: sixteen bytes. -/
structure UUID where
  bytes : List Nat
  deriving DecidableEq, Repr

/-- The `Song` struct of `main.go`. -/
structure Song where
  ID : UUID
  Title : String
  Album : String
  Artist : String
  deriving DecidableEq, Repr

/-- A value bound to a statement parameter: a CQL `uuid` or a CQL `text`. -/
inductive Value where
  | uuid (u : UUID)
  | text (s : String)
  deriving DecidableEq, Repr

/-- The fields of a `Song` under the names the default mapper of `gocqlx`
gives them (the snake-case form of the Go field name). -/
def Song.fields (s : Song) : List (String × Value) :=
  [("id", Value.uuid s.ID), ("title", Value.text s.Title),
   ("album", Value.text s.Album), ("artist", Value.text s.Artist)]

/-- Type `table.Metadata` of `gocqlx`. -/
structure Metadata where
  Name : String
  Columns : List String
  PartKey : List String
  SortKey : List String
  deriving DecidableEq, Repr

/-- The statements the query builder of `gocqlx` prepares for a table, kept
structured: a select over a table filtered by equality on the listed columns,
and an insert of the listed columns. -/
inductive Stmt where
  | Select (table : String) (whereEq : List String)
  | Insert (table : String) (columns : List String)
  deriving DecidableEq, Repr

/-- A prepared statement together with the names of its parameters. -/
structure Cql where
  stmt : Stmt
  names : List String
  deriving DecidableEq, Repr

/-- Type `table.Table` of `gocqlx`: the metadata and the statements prepared
from it. -/
structure Table where
  metadata : Metadata
  get : Cql
  sel : Cql
  insert : Cql
  deriving DecidableEq, Repr

/-- Function `table.New` of `gocqlx`: `get` filters on the whole primary key,
`sel` on the partition key only, `insert` writes every column. -/
def Table.New (m : Metadata) : Table :=
  { metadata := m
    get := { stmt := Stmt.Select m.Name (m.PartKey ++ m.SortKey), names := m.PartKey ++ m.SortKey }
    sel := { stmt := Stmt.Select m.Name m.PartKey, names := m.PartKey }
    insert := { stmt := Stmt.Insert m.Name m.Columns, names := m.Columns } }

/-- A `gocqlx.Queryx`: the statement, its parameter names, the bound values
and the error a failed bind left behind. -/
structure Queryx (ε : Type) where
  stmt : Stmt
  Names : List String
  args : List Value
  err : Option ε

/-- `Table.InsertQuery`: a query for the table's insert statement. -/
def Table.InsertQuery {ε : Type} (t : Table) : Queryx ε :=
  { stmt := t.insert.stmt, Names := t.insert.names, args := [], err := none }

/-- `Table.SelectQuery`: a query for the table's partition-key select. -/
def Table.SelectQuery {ε : Type} (t : Table) : Queryx ε :=
  { stmt := t.sel.stmt, Names := t.sel.names, args := [], err := none }

/-- The values of a record for the parameter names, in order; the first name
the record has no field for is the failure. -/
def bindStructArgs (fields : List (String × Value)) : List String → Except String (List Value)
  | [] => Except.ok []
  | n :: ns =>
    match fields.lookup n with
    | none => Except.error n
    | some v =>
      match bindStructArgs fields ns with
      | Except.ok vs => Except.ok (v :: vs)
      | Except.error m => Except.error m

/-! ## The driver and the world -/

/-- What a Go `panic` carries in this program: the error of a failed
`ParseUUID`, or a nil-pointer dereference. -/
inductive PanicValue (ε : Type) where
  | error (err : ε)
  | nilDereference

/-- A call that either returns or panics. -/
inductive Result (ε α : Type) where
  | ret (a : α)
  | panic (v : PanicValue ε)

/-- The database driver as the program sees it.  `σ` is the state of
everything outside the program (cluster and session), `ε` the type of Go
`error` values; `none` is the nil error. -/
structure Driver (σ ε : Type) where
  defaults : ClusterConfig
  ParseUUID : String → Except ε UUID
  BindError : String → ε
  CreateSession : ClusterConfig → σ → σ × Option ε
  ExecStmt : String → σ → σ × Option ε
  Exec : Queryx ε → σ → σ × Option ε
  Select : Queryx ε → σ → σ × (List Song × Option ε)
  Close : σ → σ

/-- One observable action of a run. -/
inductive Event (ε : Type) where
  | CreateSession (cfg : ClusterConfig) (err : Option ε)
  | ExecStmt (stmt : String) (err : Option ε)
  | Exec (q : Queryx ε) (err : Option ε)
  | Select (q : Queryx ε) (items : List Song) (err : Option ε)
  | Close
  | Println (msg : String)
  | Printf (item : Song)
  | Fatal (msg : String) (err : ε)
  | Panic (v : PanicValue ε)

/-- The state outside the program and the actions performed so far. -/
structure World (σ ε : Type) where
  st : σ
  trace : List (Event ε)

/-- How a run of `main` ends: `main` returns, `log.Fatal` exits the process
with the given code, or a panic reaches the top. -/
inductive Exit where
  | returned
  | exited (code : Nat)
  | panicked
  deriving DecidableEq, Repr

variable {σ ε : Type}

/-- `cluster.CreateSession()` wrapped by `gocqlx.WrapSession`, which hands the
error through. -/
def WrapSession (D : Driver σ ε) (cluster : ClusterConfig) (w : World σ ε) :
    World σ ε × Option ε :=
  let r := D.CreateSession cluster w.st
  ({ st := r.1, trace := w.trace ++ [Event.CreateSession cluster r.2] }, r.2)

/-- `Session.ExecStmt`: run one statement without parameters. -/
def Session.ExecStmt (D : Driver σ ε) (stmt : String) (w : World σ ε) :
    World σ ε × Option ε :=
  let r := D.ExecStmt stmt w.st
  ({ st := r.1, trace := w.trace ++ [Event.ExecStmt stmt r.2] }, r.2)

/-- `Session.Close`. -/
def Session.Close (D : Driver σ ε) (w : World σ ε) : World σ ε :=
  { st := D.Close w.st, trace := w.trace ++ [Event.Close] }

/-- `Queryx.BindStruct`: bind the record's fields by parameter name; a name
without a field leaves a bind error on the query. -/
def Queryx.BindStruct (D : Driver σ ε) (q : Queryx ε) (fields : List (String × Value)) :
    Queryx ε :=
  match bindStructArgs fields q.Names with
  | Except.error n => { q with err := some (D.BindError n) }
  | Except.ok arglist => { q with err := none, args := arglist }

/-- `Queryx.ExecRelease`: a query with a bind error returns it without
reaching the session; otherwise the query is executed. -/
def Queryx.ExecRelease (D : Driver σ ε) (q : Queryx ε) (w : World σ ε) :
    World σ ε × Option ε :=
  match q.err with
  | some e => (w, some e)
  | none =>
    let r := D.Exec q w.st
    ({ st := r.1, trace := w.trace ++ [Event.Exec q r.2] }, r.2)

/-- `Queryx.Select`: a query with a bind error returns it and leaves the
destination slice nil; otherwise the rows are read and decoded. -/
def Queryx.Select (D : Driver σ ε) (q : Queryx ε) (w : World σ ε) :
    World σ ε × (List Song × Option ε) :=
  match q.err with
  | some e => (w, ([], some e))
  | none =>
    let r := D.Select q w.st
    ({ st := r.1, trace := w.trace ++ [Event.Select q r.2.1 r.2.2] }, r.2)

/-- `log.Println`. -/
def Println (msg : String) (w : World σ ε) : World σ ε :=
  { w with trace := w.trace ++ [Event.Println msg] }

/-- `log.Printf("%+v", *i)` for one item. -/
def Printf (item : Song) (w : World σ ε) : World σ ε :=
  { w with trace := w.trace ++ [Event.Printf item] }

/-- `log.Fatal(msg, err)`: the line is logged; the caller ends with exit
code 1. -/
def Fatal (msg : String) (err : ε) (w : World σ ε) : World σ ε :=
  { w with trace := w.trace ++ [Event.Fatal msg err] }

/-! ## The functions of `main.go` -/

/-- `mustParseUUID` of `main.go`. -/
def mustParseUUID (D : Driver σ ε) (s : String) : Result ε UUID :=
  match D.ParseUUID s with
  | Except.error err => Result.panic (PanicValue.error err)
  | Except.ok u => Result.ret u

/-- `CreateKeySpaceIfNotExist` of `main.go`. -/
def CreateKeySpaceIfNotExist (D : Driver σ ε) (Keyspace : String) (w : World σ ε) :
    World σ ε × Option ε :=
  Session.ExecStmt D (Sprintf
    "CREATE KEYSPACE IF NOT EXISTS %s WITH replication = \x7b\x27class\x27: \x27SimpleStrategy\x27, \x27replication_factor\x27: 1\x7d"
    [Keyspace]) w

/-- `CreateTableIfNotExist` of `main.go`.  The returned pointer is an
`Option`, `none` being nil. -/
def CreateTableIfNotExist (D : Driver σ ε) (tableName : String) (w : World σ ε) :
    World σ ε × (Option Table × Option ε) :=
  let r := Session.ExecStmt D (Sprintf
    "CREATE TABLE IF NOT EXISTS %s (\n\t\tid uuid,\n\t\ttitle text,\n\t\talbum text, \n\t\tartist text,\n\t\tPRIMARY KEY (id, title, album, artist))"
    [tableName]) w
  let songMetadata : Metadata :=
    { Name := tableName
      Columns := ["id", "title", "album", "artist"]
      PartKey := ["id"]
      SortKey := ["title", "album", "artist"] }
  let songTable := Table.New songMetadata
  (r.1, (some songTable, r.2))

/-- `InsertNewSong` of `main.go`. -/
def InsertNewSong (D : Driver σ ε) (songTable : Option Table) (w : World σ ε) :
    World σ ε × Result ε (Option ε) :=
  match songTable with
  | none => (w, Result.panic PanicValue.nilDereference)
  | some t =>
    let insertSong : Queryx ε := t.InsertQuery
    match mustParseUUID D "2cc9ccb7-6221-4ccb-8387-f22b6a1b354d" with
    | Result.panic v => (w, Result.panic v)
    | Result.ret u =>
      let insertSong := insertSong.BindStruct D (Song.fields
        { ID := u
          Title := "Lost In Love Mashup | Incomplete love - Emotional Mashup"
          Album := "AB Ambients Chillout"
          Artist := "Sunix Thakur" })
      let r := insertSong.ExecRelease D w
      (r.1, Result.ret r.2)

/-- `GetSong` of `main.go`. -/
def GetSong (D : Driver σ ε) (songTable : Option Table) (w : World σ ε) :
    World σ ε × Result ε (List Song × Option ε) :=
  match songTable with
  | none => (w, Result.panic PanicValue.nilDereference)
  | some t =>
    let querySong : Queryx ε := t.SelectQuery
    match mustParseUUID D "2cc9ccb7-6221-4ccb-8387-f22b6a1b354d" with
    | Result.panic v => (w, Result.panic v)
    | Result.ret u =>
      let querySong := querySong.BindStruct D (Song.fields
        { ID := u, Title := "", Album := "", Artist := "" })
      let r := querySong.Select D w
      (r.1, Result.ret (r.2.1, r.2.2))

/-- The `for _, i := range items` loop of `main`: one log line per item. -/
def printItems (items : List Song) (w : World σ ε) : World σ ε :=
  items.foldl (fun w i => Printf i w) w

/-- `main` of `main.go`, started in the outside state `s0`. -/
def main (D : Driver σ ε) (s0 : σ) : World σ ε × Exit :=
  let w : World σ ε := { st := s0, trace := [] }
  let Keyspace := "go_demo1"
  let Port : Int := 9042
  let Host := "172.17.0.2"
  let tableName := Sprintf "%s.songs" [Keyspace]
  let cluster := CreateCluster D.defaults 1 Port [Host]
  match WrapSession D cluster w with
  | (w, some err) => (Fatal "Failed to wrap session: " err w, Exit.exited 1)
  | (w, none) =>
    let w := Println "ScyllaDB Connected Successfully" w
    match CreateKeySpaceIfNotExist D Keyspace w with
    | (w, some err) => (Fatal "create keyspace:" err w, Exit.exited 1)
    | (w, none) =>
      let _cluster : ClusterConfig := { cluster with Keyspace := Keyspace }
      match CreateTableIfNotExist D tableName w with
      | (w, (_, some err)) => (Fatal "create table:" err w, Exit.exited 1)
      | (w, (songTable, none)) =>
        match InsertNewSong D songTable w with
        | (w, Result.panic v) => ({ w with trace := w.trace ++ [Event.Panic v] }, Exit.panicked)
        | (w, Result.ret (some err)) => (Fatal "Insert ExecRelease() failed:" err w, Exit.exited 1)
        | (w, Result.ret none) =>
          match GetSong D songTable w with
          | (w, Result.panic v) => ({ w with trace := w.trace ++ [Event.Panic v] }, Exit.panicked)
          | (w, Result.ret (_, some err)) => (Fatal "Get ExecRelease() failed:" err w, Exit.exited 1)
          | (w, Result.ret (items, none)) =>
            let w := printItems items w
            (Session.Close D w, Exit.returned)

/-! ## Reading a create-table statement -/

/-- Delete every whitespace character. -/
def stripWhitespace (s : String) : String :=
  ⟨s.data.filter (fun c => !c.isWhitespace)⟩

/-- The word collected so far (in reverse), as a list of at most one token. -/
def flushWord (cur : List Char) : List String :=
  match cur with
  | [] => []
  | _ :: _ => [String.mk cur.reverse]

/-- Split CQL text into tokens: whitespace separates, and each of `(`, `)`
and `,` is a token of its own. -/
def cqlTokensAux : List Char → List Char → List String
  | cur, [] => flushWord cur
  | cur, c :: cs =>
    if c.isWhitespace then flushWord cur ++ cqlTokensAux [] cs
    else if c = '(' ∨ c = ')' ∨ c = ',' then
      flushWord cur ++ [String.singleton c] ++ cqlTokensAux [] cs
    else cqlTokensAux (c :: cur) cs

/-- The tokens of a CQL text. -/
def cqlTokens (s : String) : List String :=
  cqlTokensAux [] s.data

/-- The names of a primary-key clause up to its closing bracket, and the
tokens after it. -/
def parseKey : List String → Option (List String × List String)
  | [] => none
  | [_] => none
  | k :: sep :: rest =>
    if sep = ")" then some ([k], rest)
    else if sep = "," then
      match parseKey rest with
      | some (ks, rest') => some (k :: ks, rest')
      | none => none
    else none

/-- The column declarations `name type,` of a create-table body up to its
`PRIMARY KEY (...)` clause, with the names of that clause; the clause must be
followed by the closing bracket of the body and nothing else. -/
def parseColumns : List String → Option (List (String × String) × List String)
  | [] => none
  | [_] => none
  | [_, _] => none
  | a :: b :: c :: rest =>
    if a = "PRIMARY" ∧ b = "KEY" ∧ c = "(" then
      match parseKey rest with
      | some (ks, rest') => if rest' = [")"] then some ([], ks) else none
      | none => none
    else if c = "," then
      match parseColumns rest with
      | some (cols, ks) => some ((a, b) :: cols, ks)
      | none => none
    else none

/-- What the bracketed body of a create-table statement declares: its columns
with their types, and its primary key. -/
def parseTableBody (body : String) : Option (List (String × String) × List String) :=
  match cqlTokens body with
  | [] => none
  | open_ :: rest => if open_ = "(" then parseColumns rest else none

/-! ## A model of the store

Rows are keyed by the table and by all four columns `(id, title, album,
artist)`.  An insert adds the row or overwrites the one with the same key; a
select returns every row of the table whose columns equal the bound values.
Each operation can also fail: `pending` lists the outcomes of the operations
to come, `some e` being a failure with error `e` that leaves the rows alone.
-/

/-- The state of the modelled store. -/
structure Store where
  rows : List (String × Song)
  pending : List (Option String)
  deriving DecidableEq, Repr

/-- The failure scheduled for the next operation, if any. -/
def Store.fault (s : Store) : Option String :=
  match s.pending with
  | some e :: _ => some e
  | _ => none

/-- The store once the next scheduled outcome is used up. -/
def Store.advance (s : Store) : Store :=
  { s with pending := s.pending.tail }

/-- The row a list of named column values stands for. -/
def decodeSong (fields : List (String × Value)) : Option Song :=
  match fields.lookup "id", fields.lookup "title", fields.lookup "album",
    fields.lookup "artist" with
  | some (Value.uuid u), some (Value.text t), some (Value.text a), some (Value.text r) =>
    some { ID := u, Title := t, Album := a, Artist := r }
  | _, _, _, _ => none

/-- Whether a row has the given value in each of the given columns. -/
def whereHolds (conds : List (String × Value)) (r : Song) : Bool :=
  conds.all (fun c => (Song.fields r).lookup c.1 == some c.2)

/-- An operation without effect on the rows (session creation, DDL). -/
def Store.noop (s : Store) : Store × Option String :=
  (s.advance, s.fault)

/-- Execute a bound query for its effect. -/
def Store.exec (q : Queryx String) (s : Store) : Store × Option String :=
  match s.fault with
  | some e => (s.advance, some e)
  | none =>
    match q.stmt with
    | Stmt.Insert t cols =>
      match decodeSong (cols.zip q.args) with
      | some r =>
        ({ rows := (t, r) :: s.rows.filter (fun p => p ≠ (t, r)), pending := s.pending.tail },
          none)
      | none => (s.advance, some "invalid insert")
    | Stmt.Select _ _ => (s.advance, none)

/-- Execute a bound query for its rows. -/
def Store.select (q : Queryx String) (s : Store) : Store × (List Song × Option String) :=
  match s.fault with
  | some e => (s.advance, ([], some e))
  | none =>
    match q.stmt with
    | Stmt.Select t cols =>
      (s.advance,
        (((s.rows.filter (fun p => p.1 == t && whereHolds (cols.zip q.args) p.2)).map
          Prod.snd), none))
    | Stmt.Insert _ _ => (s.advance, ([], none))

/-- The driver over the modelled store; the UUID parser stays a parameter. -/
def storeDriver (parse : String → Except String UUID) : Driver Store String :=
  { defaults := sampleDefaults
    ParseUUID := parse
    BindError := fun n => "bind error: could not find name " ++ n
    CreateSession := fun _ s => s.noop
    ExecStmt := fun _ s => s.noop
    Exec := Store.exec
    Select := Store.select
    Close := fun s => s }

/-- A UUID parser for evaluating the model: the bytes are the character codes
of the text. -/
def sampleParse (s : String) : Except String UUID :=
  if s.length = 36 then Except.ok { bytes := s.data.map Char.toNat }
  else Except.error ("invalid UUID " ++ s)

/-! ## Observations on traces -/

/-- The error result of an event that is a call to the driver (session
creation, a plain statement, an executed query, a select); `none` for the
events that are not calls. -/
def Event.callError : Event ε → Option (Option ε)
  | Event.CreateSession _ r => some r
  | Event.ExecStmt _ r => some r
  | Event.Exec _ r => some r
  | Event.Select _ _ r => some r
  | _ => none

/-- No call in the trace returned an error. -/
def NoFail (tr : List (Event ε)) : Prop :=
  ∀ ev ∈ tr, ∀ e, ev.callError ≠ some (some e)

/-- The kinds of driver call. -/
inductive Call where
  | CreateSession
  | ExecStmt
  | Exec
  | Select
  deriving DecidableEq, Repr

/-- The kind of call an event is, if it is one. -/
def Event.call : Event ε → Option Call
  | Event.CreateSession _ _ => some Call.CreateSession
  | Event.ExecStmt _ _ => some Call.ExecStmt
  | Event.Exec _ _ => some Call.Exec
  | Event.Select _ _ _ => some Call.Select
  | _ => none

/-- Whether an event is the release of the session. -/
def Event.isClose : Event ε → Bool
  | Event.Close => true
  | _ => false

/-- How many times a trace releases the session. -/
def closeCount (tr : List (Event ε)) : Nat :=
  tr.countP Event.isClose

/-! ## Theorems: configuration -/

/-- C1: for every consistency level, port and host list (and whatever the
driver defaults are), `CreateCluster` returns a configuration with that
consistency, that port, those hosts in the same order, a timeout of exactly
five seconds, an exponential-backoff retry policy with Min = 1 s, Max = 10 s
and NumRetries = 5, and a token-aware host-selection policy falling back to
round-robin. -/
theorem CreateCluster_fields (defaults : ClusterConfig) (c : Nat) (p : Int)
    (hs : List String) :
    (CreateCluster defaults c p hs).Consistency = c ∧
    (CreateCluster defaults c p hs).Port = p ∧
    (CreateCluster defaults c p hs).Hosts = hs ∧
    (CreateCluster defaults c p hs).Timeout = 5 * 1000000000 ∧
    (CreateCluster defaults c p hs).RetryPolicy =
      some (RetryPolicy.ExponentialBackoffRetryPolicy 5 (1 * 1000000000) (10 * 1000000000)) ∧
    (CreateCluster defaults c p hs).HostSelectionPolicy =
      some (HostSelectionPolicy.TokenAwareHostPolicy HostSelectionPolicy.RoundRobinHostPolicy) := by
  refine ⟨rfl, rfl, rfl, rfl, ?_, rfl⟩
  simp [CreateCluster, Second]

/-- C9, as stated, fails: with no host supplied `CreateCluster` still returns
a configuration, and its host list is empty, so the invariant does not hold
of it. -/
theorem CreateCluster_no_hosts_counterexample :
    (CreateCluster sampleDefaults 1 9042 []).Hosts = [] ∧
    ¬ ConfigInvariant (CreateCluster sampleDefaults 1 9042 []) := by
  refine ⟨rfl, ?_⟩
  intro h
  exact h.1 rfl

/-- C9, amended: `CreateCluster` returns a configuration for every input, its
minimum backoff is at most its maximum backoff and its number of retries is
non-negative; its host list is the supplied one, so it is non-empty exactly
when at least one host is supplied, and then the whole invariant holds. -/
theorem CreateCluster_invariant (defaults : ClusterConfig) (c : Nat) (p : Int)
    (hs : List String) :
    (∃ n lo hi, (CreateCluster defaults c p hs).RetryPolicy =
        some (RetryPolicy.ExponentialBackoffRetryPolicy n lo hi) ∧ lo ≤ hi ∧ 0 ≤ n) ∧
    (CreateCluster defaults c p hs).Hosts = hs ∧
    (ConfigInvariant (CreateCluster defaults c p hs) ↔ hs ≠ []) := by
  refine ⟨⟨5, Second, 10 * Second, rfl, by decide, by decide⟩, rfl, ?_⟩
  constructor
  · intro h
    exact h.1
  · intro h
    refine ⟨h, ?_⟩
    show Second ≤ 10 * Second ∧ (0 : Int) ≤ 5
    exact ⟨by decide, by decide⟩

/-! ## Theorems: schema bootstrap -/

/-- C2: for every table name and every outcome of the create-table statement,
the table returned by `CreateTableIfNotExist` has that name, the columns
`[id, title, album, artist]`, the partition key `[id]` and the clustering key
`[title, album, artist]`; two invocations with the same name, on any drivers
and in any worlds, return equal tables. -/
theorem CreateTableIfNotExist_metadata (D : Driver σ ε) (n : String) (w : World σ ε) :
    (∃ t, (CreateTableIfNotExist D n w).2.1 = some t ∧
      t.metadata.Name = n ∧
      t.metadata.Columns = ["id", "title", "album", "artist"] ∧
      t.metadata.PartKey = ["id"] ∧
      t.metadata.SortKey = ["title", "album", "artist"]) ∧
    (∀ (σ' ε' : Type) (D' : Driver σ' ε') (w' : World σ' ε'),
      (CreateTableIfNotExist D' n w').2.1 = (CreateTableIfNotExist D n w).2.1) := by
  refine ⟨⟨_, rfl, rfl, rfl, rfl, rfl⟩, ?_⟩
  intro σ' ε' D' w'
  rfl

/-- C3: `CreateTableIfNotExist` returns a non-nil table whatever the statement
did, and its error is the error of the executed statement unchanged: the
failure `e` when the statement failed with `e`, nil when it succeeded. -/
theorem CreateTableIfNotExist_error (D : Driver σ ε) (n : String) (w : World σ ε) :
    (CreateTableIfNotExist D n w).2.1 ≠ none ∧
    (∃ stmt, (CreateTableIfNotExist D n w).1.trace = w.trace ++
        [Event.ExecStmt stmt (CreateTableIfNotExist D n w).2.2] ∧
      (CreateTableIfNotExist D n w).2.2 = (D.ExecStmt stmt w.st).2) := by
  refine ⟨by simp [CreateTableIfNotExist], ⟨_, rfl, rfl⟩⟩

/-- C4: for every keyspace name `k`, `CreateKeySpaceIfNotExist` executes
exactly one statement, the text `CREATE KEYSPACE IF NOT EXISTS k WITH
replication = {'class': 'SimpleStrategy', 'replication_factor': 1}`, and
returns the error of that execution unchanged. -/
theorem CreateKeySpaceIfNotExist_statement (D : Driver σ ε) (k : String) (w : World σ ε) :
    (CreateKeySpaceIfNotExist D k w).1.trace = w.trace ++
      [Event.ExecStmt ("CREATE KEYSPACE IF NOT EXISTS " ++ k ++
          " WITH replication = \x7b\x27class\x27: \x27SimpleStrategy\x27, \x27replication_factor\x27: 1\x7d")
        (CreateKeySpaceIfNotExist D k w).2] ∧
    (CreateKeySpaceIfNotExist D k w).2 =
      (D.ExecStmt ("CREATE KEYSPACE IF NOT EXISTS " ++ k ++
          " WITH replication = \x7b\x27class\x27: \x27SimpleStrategy\x27, \x27replication_factor\x27: 1\x7d")
        w.st).2 ∧
    (CreateKeySpaceIfNotExist D k w).1.st =
      (D.ExecStmt ("CREATE KEYSPACE IF NOT EXISTS " ++ k ++
          " WITH replication = \x7b\x27class\x27: \x27SimpleStrategy\x27, \x27replication_factor\x27: 1\x7d")
        w.st).1 := by
  refine ⟨rfl, rfl, rfl⟩

/-- Deleting whitespace distributes over concatenation. -/
theorem stripWhitespace_append (a b : String) :
    stripWhitespace (a ++ b) = stripWhitespace a ++ stripWhitespace b := by
  simp [stripWhitespace, String.ext_iff, String.data_append]

set_option maxRecDepth 100000 in
/-- The body of the create-table format and its one-line form have the same
tokens. -/
theorem tableBody_tokens :
    cqlTokens " (\n\t\tid uuid,\n\t\ttitle text,\n\t\talbum text, \n\t\tartist text,\n\t\tPRIMARY KEY (id, title, album, artist))" =
      cqlTokens
        " (id uuid, title text, album text, artist text, PRIMARY KEY (id, title, album, artist))" := by
  decide

set_option maxRecDepth 100000 in
/-- The body of the create-table format and its one-line form are equal once
whitespace is deleted. -/
theorem tableBody_strip :
    stripWhitespace " (\n\t\tid uuid,\n\t\ttitle text,\n\t\talbum text, \n\t\tartist text,\n\t\tPRIMARY KEY (id, title, album, artist))" =
      stripWhitespace
        " (id uuid, title text, album text, artist text, PRIMARY KEY (id, title, album, artist))" := by
  decide

set_option maxRecDepth 100000 in
/-- What the body of the create-table format declares. -/
theorem tableBody_parse :
    parseTableBody " (\n\t\tid uuid,\n\t\ttitle text,\n\t\talbum text, \n\t\tartist text,\n\t\tPRIMARY KEY (id, title, album, artist))" =
      some ([("id", "uuid"), ("title", "text"), ("album", "text"), ("artist", "text")],
        ["id", "title", "album", "artist"]) := by
  decide

/-- C5: the one statement `CreateTableIfNotExist` executes is
`CREATE TABLE IF NOT EXISTS n` followed by a bracketed body that does not
depend on `n`; up to whitespace the statement is `CREATE TABLE IF NOT EXISTS n
(id uuid, title text, album text, artist text, PRIMARY KEY (id, title, album,
artist))`, and the body has the same tokens as that form.  The body declares
exactly the columns id: uuid, title: text, album: text, artist: text and the
primary key (id, title, album, artist); the declared column names are the
`Columns` of the returned table, the first primary-key column is its `PartKey`
and the remaining ones, in order, its `SortKey`. -/
theorem CreateTableIfNotExist_statement (D : Driver σ ε) (n : String) (w : World σ ε) :
    ∃ body : String,
      body = " (\n\t\tid uuid,\n\t\ttitle text,\n\t\talbum text, \n\t\tartist text,\n\t\tPRIMARY KEY (id, title, album, artist))" ∧
      (CreateTableIfNotExist D n w).1.trace = w.trace ++
        [Event.ExecStmt ("CREATE TABLE IF NOT EXISTS " ++ n ++ body)
          (CreateTableIfNotExist D n w).2.2] ∧
      stripWhitespace ("CREATE TABLE IF NOT EXISTS " ++ n ++ body) =
        stripWhitespace ("CREATE TABLE IF NOT EXISTS " ++ n ++
          " (id uuid, title text, album text, artist text, PRIMARY KEY (id, title, album, artist))") ∧
      cqlTokens body = cqlTokens
        " (id uuid, title text, album text, artist text, PRIMARY KEY (id, title, album, artist))" ∧
      parseTableBody body =
        some ([("id", "uuid"), ("title", "text"), ("album", "text"), ("artist", "text")],
          ["id", "title", "album", "artist"]) ∧
      ∃ t, (CreateTableIfNotExist D n w).2.1 = some t ∧
        t.metadata.Columns = ["id", "title", "album", "artist"] ∧
        t.metadata.PartKey = ["id"] ∧
        t.metadata.SortKey = ["title", "album", "artist"] ∧
        parseTableBody body =
          some (t.metadata.Columns.zip ["uuid", "text", "text", "text"],
            t.metadata.PartKey ++ t.metadata.SortKey) := by
  refine ⟨_, rfl, rfl, ?_, tableBody_tokens, tableBody_parse,
    ⟨_, rfl, rfl, rfl, rfl, tableBody_parse⟩⟩
  rw [stripWhitespace_append, stripWhitespace_append _ " (id uuid, title text, album text, artist text, PRIMARY KEY (id, title, album, artist))"]
  exact congrArg _ tableBody_strip

/-! ## Theorems: reading and writing -/

/-- C10: when the UUID text parses to `u`, the record `GetSong` binds is the
song with ID `u` and empty Title, Album and Artist, and the record
`InsertNewSong` binds has the same ID `u`.  For every table the bound
statement is the table's partition-key select, and `GetSong` returns what
that select returns.  For the songs table the select is filtered on `id`
alone, its only bound value is `u`, exactly one select reaches the session,
and `GetSong` returns its rows and its error unchanged. -/
theorem GetSong_lookup (D : Driver σ ε) (m : Metadata) (n : String) (w w' : World σ ε)
    (u : UUID) (hu : D.ParseUUID "2cc9ccb7-6221-4ccb-8387-f22b6a1b354d" = Except.ok u) :
    ∃ (lookup inserted : Song) (q qi qs : Queryx ε),
      lookup = { ID := u, Title := "", Album := "", Artist := "" } ∧
      inserted = { ID := u
                   Title := "Lost In Love Mashup | Incomplete love - Emotional Mashup"
                   Album := "AB Ambients Chillout"
                   Artist := "Sunix Thakur" } ∧
      inserted.ID = lookup.ID ∧
      q = Queryx.BindStruct D (Table.New m).SelectQuery (Song.fields lookup) ∧
      qi = Queryx.BindStruct D (Table.New m).InsertQuery (Song.fields inserted) ∧
      q.stmt = Stmt.Select m.Name m.PartKey ∧
      q.Names = m.PartKey ∧
      GetSong D (some (Table.New m)) w =
        ((q.Select D w).1, Result.ret ((q.Select D w).2.1, (q.Select D w).2.2)) ∧
      InsertNewSong D (some (Table.New m)) w =
        ((qi.ExecRelease D w).1, Result.ret (qi.ExecRelease D w).2) ∧
      qs = { stmt := Stmt.Select n ["id"], Names := ["id"], args := [Value.uuid u],
             err := none } ∧
      GetSong D (CreateTableIfNotExist D n w').2.1 w =
        ({ st := (D.Select qs w.st).1
           trace := w.trace ++ [Event.Select qs (D.Select qs w.st).2.1 (D.Select qs w.st).2.2] },
          Result.ret ((D.Select qs w.st).2.1, (D.Select qs w.st).2.2)) := by
  refine ⟨_, _, _, _, _, rfl, rfl, rfl, rfl, rfl, ?_, ?_, ?_, ?_, rfl, ?_⟩
  · simp only [Queryx.BindStruct]
    split <;> rfl
  · simp only [Queryx.BindStruct]
    split <;> rfl
  · simp [GetSong, mustParseUUID, hu]
  · simp [InsertNewSong, mustParseUUID, hu]
  · simp [GetSong, mustParseUUID, hu, CreateTableIfNotExist, Table.New, Table.SelectQuery,
      Queryx.BindStruct, bindStructArgs, Song.fields, List.lookup, Queryx.Select]

/-- Instance of C10 on the modelled store with the sample parser. -/
theorem GetSong_lookup_witness :
    sampleParse "2cc9ccb7-6221-4ccb-8387-f22b6a1b354d" =
      Except.ok { bytes := "2cc9ccb7-6221-4ccb-8387-f22b6a1b354d".data.map Char.toNat } ∧
    ∃ (lookup inserted : Song) (q qi qs : Queryx String),
      lookup = { ID := { bytes := "2cc9ccb7-6221-4ccb-8387-f22b6a1b354d".data.map Char.toNat },
                 Title := "", Album := "", Artist := "" } ∧
      inserted = { ID := { bytes := "2cc9ccb7-6221-4ccb-8387-f22b6a1b354d".data.map Char.toNat }
                   Title := "Lost In Love Mashup | Incomplete love - Emotional Mashup"
                   Album := "AB Ambients Chillout"
                   Artist := "Sunix Thakur" } ∧
      inserted.ID = lookup.ID ∧
      q = Queryx.BindStruct (storeDriver sampleParse)
        (Table.New { Name := "go_demo1.songs", Columns := ["id"], PartKey := ["id"],
                     SortKey := [] }).SelectQuery (Song.fields lookup) ∧
      qi = Queryx.BindStruct (storeDriver sampleParse)
        (Table.New { Name := "go_demo1.songs", Columns := ["id"], PartKey := ["id"],
                     SortKey := [] }).InsertQuery (Song.fields inserted) ∧
      q.stmt = Stmt.Select "go_demo1.songs" ["id"] ∧
      q.Names = ["id"] ∧
      GetSong (storeDriver sampleParse)
          (some (Table.New { Name := "go_demo1.songs", Columns := ["id"], PartKey := ["id"],
                             SortKey := [] })) { st := { rows := [], pending := [] }, trace := [] } =
        ((q.Select (storeDriver sampleParse) { st := { rows := [], pending := [] }, trace := [] }).1,
          Result.ret
            ((q.Select (storeDriver sampleParse)
                { st := { rows := [], pending := [] }, trace := [] }).2.1,
             (q.Select (storeDriver sampleParse)
                { st := { rows := [], pending := [] }, trace := [] }).2.2)) ∧
      InsertNewSong (storeDriver sampleParse)
          (some (Table.New { Name := "go_demo1.songs", Columns := ["id"], PartKey := ["id"],
                             SortKey := [] })) { st := { rows := [], pending := [] }, trace := [] } =
        ((qi.ExecRelease (storeDriver sampleParse)
            { st := { rows := [], pending := [] }, trace := [] }).1,
          Result.ret (qi.ExecRelease (storeDriver sampleParse)
            { st := { rows := [], pending := [] }, trace := [] }).2) ∧
      qs = { stmt := Stmt.Select "go_demo1.songs" ["id"], Names := ["id"],
             args := [Value.uuid
               { bytes := "2cc9ccb7-6221-4ccb-8387-f22b6a1b354d".data.map Char.toNat }],
             err := none } ∧
      GetSong (storeDriver sampleParse)
          (CreateTableIfNotExist (storeDriver sampleParse) "go_demo1.songs"
            { st := { rows := [], pending := [] }, trace := [] }).2.1
          { st := { rows := [], pending := [] }, trace := [] } =
        ({ st := ((storeDriver sampleParse).Select qs { rows := [], pending := [] }).1
           trace := [] ++ [Event.Select qs
             ((storeDriver sampleParse).Select qs { rows := [], pending := [] }).2.1
             ((storeDriver sampleParse).Select qs { rows := [], pending := [] }).2.2] },
          Result.ret (((storeDriver sampleParse).Select qs { rows := [], pending := [] }).2.1,
            ((storeDriver sampleParse).Select qs { rows := [], pending := [] }).2.2)) :=
  ⟨by rfl,
    GetSong_lookup (storeDriver sampleParse)
      { Name := "go_demo1.songs", Columns := ["id"], PartKey := ["id"], SortKey := [] }
      "go_demo1.songs" { st := { rows := [], pending := [] }, trace := [] }
      { st := { rows := [], pending := [] }, trace := [] }
      { bytes := "2cc9ccb7-6221-4ccb-8387-f22b6a1b354d".data.map Char.toNat } (by rfl)⟩

/-- Binding a song to the insert of the songs table yields its four values in
column order. -/
theorem songs_insert_args (D : Driver σ ε) (n : String) (r : Song) :
    Queryx.BindStruct D
        (Table.New { Name := n, Columns := ["id", "title", "album", "artist"],
                     PartKey := ["id"], SortKey := ["title", "album", "artist"] }).InsertQuery
        (Song.fields r) =
      { stmt := Stmt.Insert n ["id", "title", "album", "artist"]
        Names := ["id", "title", "album", "artist"]
        args := [Value.uuid r.ID, Value.text r.Title, Value.text r.Album, Value.text r.Artist]
        err := none } := by
  simp [Table.New, Table.InsertQuery, Queryx.BindStruct, bindStructArgs, Song.fields,
    List.lookup]

/-- Binding a song to the select of the songs table yields its ID alone. -/
theorem songs_select_args (D : Driver σ ε) (n : String) (r : Song) :
    Queryx.BindStruct D
        (Table.New { Name := n, Columns := ["id", "title", "album", "artist"],
                     PartKey := ["id"], SortKey := ["title", "album", "artist"] }).SelectQuery
        (Song.fields r) =
      { stmt := Stmt.Select n ["id"], Names := ["id"], args := [Value.uuid r.ID],
        err := none } := by
  simp [Table.New, Table.SelectQuery, Queryx.BindStruct, bindStructArgs, Song.fields,
    List.lookup]

/-- A row passes the partition-key filter exactly when its ID is the bound
one. -/
theorem whereHolds_id (u : UUID) (r : Song) :
    whereHolds [("id", Value.uuid u)] r = decide (r.ID = u) := by
  simp [whereHolds, Song.fields, List.lookup]
  by_cases h : r.ID = u <;> simp [h]

/-- The four columns of a song decode back to the song. -/
theorem decodeSong_fields (r : Song) :
    decodeSong [("id", Value.uuid r.ID), ("title", Value.text r.Title),
      ("album", Value.text r.Album), ("artist", Value.text r.Artist)] = some r := by
  simp [decodeSong, List.lookup]

/-- A successful insert of a song into the store puts its row first and
removes any earlier copy of it. -/
theorem Store.exec_insert (n : String) (r : Song) (s : Store)
    (h : (Store.exec
      { stmt := Stmt.Insert n ["id", "title", "album", "artist"]
        Names := ["id", "title", "album", "artist"]
        args := [Value.uuid r.ID, Value.text r.Title, Value.text r.Album, Value.text r.Artist]
        err := none } s).2 = none) :
    (Store.exec
      { stmt := Stmt.Insert n ["id", "title", "album", "artist"]
        Names := ["id", "title", "album", "artist"]
        args := [Value.uuid r.ID, Value.text r.Title, Value.text r.Album, Value.text r.Artist]
        err := none } s).1.rows = (n, r) :: s.rows.filter (fun p => p ≠ (n, r)) := by
  unfold Store.exec at h ⊢
  cases hf : s.fault with
  | some e => simp [hf] at h
  | none => simp [hf, decodeSong_fields]

/-- A successful select by ID returns the rows of the table with that ID. -/
theorem Store.select_id (n : String) (u : UUID) (s : Store)
    (h : (Store.select
      { stmt := Stmt.Select n ["id"], Names := ["id"], args := [Value.uuid u],
        err := none } s).2.2 = none) :
    (Store.select
      { stmt := Stmt.Select n ["id"], Names := ["id"], args := [Value.uuid u],
        err := none } s).2.1 =
      (s.rows.filter (fun p => p.1 == n && decide (p.2.ID = u))).map Prod.snd := by
  unfold Store.select at h ⊢
  cases hf : s.fault with
  | some e => simp [hf] at h
  | none => simp [hf, whereHolds_id]

/-- C6: round trip over the modelled store.  From any store state and any
schedule of failures, if `InsertNewSong` succeeds on the songs table and
`GetSong` then succeeds on the same table, the UUID text parsed to some `u`
and the returned sequence contains the song with ID `u` and the inserted
title, album and artist; when the store held no other row of that table with
that ID, the sequence is exactly that one song. -/
theorem insert_then_get (parse : String → Except String UUID) (n : String)
    (w0 w w1 w2 : World Store String) (items : List Song)
    (hins : InsertNewSong (storeDriver parse)
      (CreateTableIfNotExist (storeDriver parse) n w0).2.1 w = (w1, Result.ret none))
    (hget : GetSong (storeDriver parse)
      (CreateTableIfNotExist (storeDriver parse) n w0).2.1 w1 = (w2, Result.ret (items, none))) :
    ∃ u, parse "2cc9ccb7-6221-4ccb-8387-f22b6a1b354d" = Except.ok u ∧
      ({ ID := u
         Title := "Lost In Love Mashup | Incomplete love - Emotional Mashup"
         Album := "AB Ambients Chillout"
         Artist := "Sunix Thakur" } : Song) ∈ items ∧
      ((∀ r, (n, r) ∈ w.st.rows → r.ID = u →
          r = { ID := u
                Title := "Lost In Love Mashup | Incomplete love - Emotional Mashup"
                Album := "AB Ambients Chillout"
                Artist := "Sunix Thakur" }) →
        items = [{ ID := u
                   Title := "Lost In Love Mashup | Incomplete love - Emotional Mashup"
                   Album := "AB Ambients Chillout"
                   Artist := "Sunix Thakur" }]) := by
  have htbl : (CreateTableIfNotExist (storeDriver parse) n w0).2.1 =
      some (Table.New { Name := n, Columns := ["id", "title", "album", "artist"],
                        PartKey := ["id"], SortKey := ["title", "album", "artist"] }) := rfl
  rw [htbl] at hins hget
  cases hp : parse "2cc9ccb7-6221-4ccb-8387-f22b6a1b354d" with
  | error e =>
    have hp' : (storeDriver parse).ParseUUID "2cc9ccb7-6221-4ccb-8387-f22b6a1b354d" =
        Except.error e := hp
    simp [InsertNewSong, mustParseUUID, hp'] at hins
  | ok u =>
    have hp' : (storeDriver parse).ParseUUID "2cc9ccb7-6221-4ccb-8387-f22b6a1b354d" =
        Except.ok u := hp
    refine ⟨u, rfl, ?_⟩
    simp only [InsertNewSong, mustParseUUID, hp', songs_insert_args, Queryx.ExecRelease,
      Prod.mk.injEq, Result.ret.injEq] at hins
    simp only [GetSong, mustParseUUID, hp', songs_select_args, Queryx.Select,
      Prod.mk.injEq, Result.ret.injEq] at hget
    obtain ⟨rfl, hok⟩ := hins
    obtain ⟨-, rfl, hok2⟩ := hget
    simp only [storeDriver] at hok hok2 ⊢
    have hrows := Store.exec_insert n
      { ID := u
        Title := "Lost In Love Mashup | Incomplete love - Emotional Mashup"
        Album := "AB Ambients Chillout"
        Artist := "Sunix Thakur" } w.st hok
    have hsel := Store.select_id n u _ hok2
    refine ⟨?_, ?_⟩
    · rw [hsel, hrows]
      simp
    · intro hother
      rw [hsel, hrows]
      simp only [List.filter_cons, beq_self_eq_true, decide_True, Bool.and_self, if_true,
        List.map_cons, List.cons.injEq, true_and, List.map_eq_nil_iff, List.filter_eq_nil_iff]
      intro p hp
      rw [List.mem_filter] at hp
      obtain ⟨hmem, hne⟩ := hp
      intro hcond
      simp only [Bool.and_eq_true, beq_iff_eq, decide_eq_true_eq] at hcond
      obtain ⟨hn, hid⟩ := hcond
      have hp2 := hother p.2 (by rw [← hn]; exact hmem) hid
      apply of_decide_eq_true hne
      exact Prod.ext hn hp2

/-- Instance of C6: the empty store, no failures, the sample parser. -/
theorem insert_then_get_witness :
    InsertNewSong (storeDriver sampleParse)
        (CreateTableIfNotExist (storeDriver sampleParse) "go_demo1.songs"
          { st := { rows := [], pending := [] }, trace := [] }).2.1
        { st := { rows := [], pending := [] }, trace := [] } =
      ((InsertNewSong (storeDriver sampleParse)
        (CreateTableIfNotExist (storeDriver sampleParse) "go_demo1.songs"
          { st := { rows := [], pending := [] }, trace := [] }).2.1
        { st := { rows := [], pending := [] }, trace := [] }).1, Result.ret none) ∧
    ∃ u, sampleParse "2cc9ccb7-6221-4ccb-8387-f22b6a1b354d" = Except.ok u ∧
      ({ ID := u
         Title := "Lost In Love Mashup | Incomplete love - Emotional Mashup"
         Album := "AB Ambients Chillout"
         Artist := "Sunix Thakur" } : Song) ∈
        [({ ID := { bytes := "2cc9ccb7-6221-4ccb-8387-f22b6a1b354d".data.map Char.toNat }
            Title := "Lost In Love Mashup | Incomplete love - Emotional Mashup"
            Album := "AB Ambients Chillout"
            Artist := "Sunix Thakur" } : Song)] ∧
      ((∀ r, ("go_demo1.songs", r) ∈ ([] : List (String × Song)) → r.ID = u →
          r = { ID := u
                Title := "Lost In Love Mashup | Incomplete love - Emotional Mashup"
                Album := "AB Ambients Chillout"
                Artist := "Sunix Thakur" }) →
        [({ ID := { bytes := "2cc9ccb7-6221-4ccb-8387-f22b6a1b354d".data.map Char.toNat }
            Title := "Lost In Love Mashup | Incomplete love - Emotional Mashup"
            Album := "AB Ambients Chillout"
            Artist := "Sunix Thakur" } : Song)] =
          [{ ID := u
             Title := "Lost In Love Mashup | Incomplete love - Emotional Mashup"
             Album := "AB Ambients Chillout"
             Artist := "Sunix Thakur" }]) :=
  ⟨by rfl,
    insert_then_get sampleParse "go_demo1.songs"
      { st := { rows := [], pending := [] }, trace := [] }
      { st := { rows := [], pending := [] }, trace := [] }
      (InsertNewSong (storeDriver sampleParse)
        (CreateTableIfNotExist (storeDriver sampleParse) "go_demo1.songs"
          { st := { rows := [], pending := [] }, trace := [] }).2.1
        { st := { rows := [], pending := [] }, trace := [] }).1
      (GetSong (storeDriver sampleParse)
        (CreateTableIfNotExist (storeDriver sampleParse) "go_demo1.songs"
          { st := { rows := [], pending := [] }, trace := [] }).2.1
        (InsertNewSong (storeDriver sampleParse)
          (CreateTableIfNotExist (storeDriver sampleParse) "go_demo1.songs"
            { st := { rows := [], pending := [] }, trace := [] }).2.1
          { st := { rows := [], pending := [] }, trace := [] }).1).1
      [{ ID := { bytes := "2cc9ccb7-6221-4ccb-8387-f22b6a1b354d".data.map Char.toNat }
         Title := "Lost In Love Mashup | Incomplete love - Emotional Mashup"
         Album := "AB Ambients Chillout"
         Artist := "Sunix Thakur" }]
      (by rfl) (by rfl)⟩

/-! ## Theorems: the run of `main` -/

/-- Session creation adds one call event carrying the returned error. -/
theorem WrapSession_trace {D : Driver σ ε} {c : ClusterConfig} {w w' : World σ ε}
    {r : Option ε} (h : WrapSession D c w = (w', r)) :
    ∃ ev, w'.trace = w.trace ++ [ev] ∧ ev.callError = some r ∧
      ev.call = some Call.CreateSession := by
  simp only [WrapSession, Prod.mk.injEq] at h
  obtain ⟨rfl, rfl⟩ := h
  exact ⟨_, rfl, rfl, rfl⟩

/-- The keyspace statement adds one call event carrying the returned error. -/
theorem CreateKeySpaceIfNotExist_trace {D : Driver σ ε} {k : String} {w w' : World σ ε}
    {r : Option ε} (h : CreateKeySpaceIfNotExist D k w = (w', r)) :
    ∃ ev, w'.trace = w.trace ++ [ev] ∧ ev.callError = some r ∧
      ev.call = some Call.ExecStmt := by
  simp only [CreateKeySpaceIfNotExist, Session.ExecStmt, Prod.mk.injEq] at h
  obtain ⟨rfl, rfl⟩ := h
  exact ⟨_, rfl, rfl, rfl⟩

/-- The create-table statement adds one call event carrying the returned
error, and the table returned is the songs table of that name. -/
theorem CreateTableIfNotExist_trace {D : Driver σ ε} {n : String} {w w' : World σ ε}
    {t : Option Table} {r : Option ε} (h : CreateTableIfNotExist D n w = (w', (t, r))) :
    (∃ ev, w'.trace = w.trace ++ [ev] ∧ ev.callError = some r ∧
      ev.call = some Call.ExecStmt) ∧
    t = some (Table.New { Name := n, Columns := ["id", "title", "album", "artist"],
                          PartKey := ["id"], SortKey := ["title", "album", "artist"] }) := by
  simp only [CreateTableIfNotExist, Session.ExecStmt, Prod.mk.injEq] at h
  obtain ⟨rfl, rfl, rfl⟩ := h
  exact ⟨⟨_, rfl, rfl, rfl⟩, rfl⟩

/-- A panic in `InsertNewSong` happens before anything reaches the session. -/
theorem InsertNewSong_trace_panic {D : Driver σ ε} {t : Option Table} {w w' : World σ ε}
    {v : PanicValue ε} (h : InsertNewSong D t w = (w', Result.panic v)) :
    w'.trace = w.trace := by
  unfold InsertNewSong at h
  split at h
  · simp only [Prod.mk.injEq] at h
    rw [← h.1]
  · split at h
    · simp only [Prod.mk.injEq] at h
      rw [← h.1]
    · simp at h

/-- On the songs table a returning `InsertNewSong` executed exactly one
query, with the returned error as its result. -/
theorem InsertNewSong_trace_ret {D : Driver σ ε} {n : String} {w w' : World σ ε}
    {r : Option ε}
    (h : InsertNewSong D
      (some (Table.New { Name := n, Columns := ["id", "title", "album", "artist"],
                         PartKey := ["id"], SortKey := ["title", "album", "artist"] })) w =
      (w', Result.ret r)) :
    ∃ ev, w'.trace = w.trace ++ [ev] ∧ ev.callError = some r ∧ ev.call = some Call.Exec := by
  unfold InsertNewSong at h
  simp only [songs_insert_args, Queryx.ExecRelease] at h
  split at h
  · simp at h
  · simp only [Prod.mk.injEq, Result.ret.injEq] at h
    obtain ⟨rfl, rfl⟩ := h
    exact ⟨_, rfl, rfl, rfl⟩

/-- A panic in `GetSong` happens before anything reaches the session. -/
theorem GetSong_trace_panic {D : Driver σ ε} {t : Option Table} {w w' : World σ ε}
    {v : PanicValue ε} (h : GetSong D t w = (w', Result.panic v)) :
    w'.trace = w.trace := by
  unfold GetSong at h
  split at h
  · simp only [Prod.mk.injEq] at h
    rw [← h.1]
  · split at h
    · simp only [Prod.mk.injEq] at h
      rw [← h.1]
    · simp at h

/-- On the songs table a returning `GetSong` ran exactly one select, with the
returned error as its result. -/
theorem GetSong_trace_ret {D : Driver σ ε} {n : String} {w w' : World σ ε}
    {items : List Song} {r : Option ε}
    (h : GetSong D
      (some (Table.New { Name := n, Columns := ["id", "title", "album", "artist"],
                         PartKey := ["id"], SortKey := ["title", "album", "artist"] })) w =
      (w', Result.ret (items, r))) :
    ∃ ev, w'.trace = w.trace ++ [ev] ∧ ev.callError = some r ∧ ev.call = some Call.Select := by
  unfold GetSong at h
  simp only [songs_select_args, Queryx.Select] at h
  split at h
  · simp at h
  · simp only [Prod.mk.injEq, Result.ret.injEq] at h
    obtain ⟨rfl, rfl, rfl⟩ := h
    exact ⟨_, rfl, rfl, rfl⟩

/-- The item loop logs one line per item and touches nothing else. -/
theorem printItems_trace (items : List Song) (w : World σ ε) :
    (printItems items w).trace = w.trace ++ items.map Event.Printf := by
  unfold printItems
  induction items generalizing w with
  | nil => simp
  | cons i rest ih =>
    simp only [List.foldl_cons, List.map_cons]
    rw [ih]
    simp [Printf]

/-- A trace without failed calls stays so when an event that is not a failed
call is added. -/
theorem NoFail_snoc {tr : List (Event ε)} {ev : Event ε} (h : NoFail tr)
    (hev : ∀ e, ev.callError ≠ some (some e)) : NoFail (tr ++ [ev]) := by
  intro x hx
  rw [List.mem_append, List.mem_singleton] at hx
  rcases hx with hx | rfl
  · exact h x hx
  · exact hev

/-- A trace without failed calls stays so when log lines of items are added. -/
theorem NoFail_items {tr : List (Event ε)} (h : NoFail tr) (items : List Song) :
    NoFail (tr ++ items.map Event.Printf) := by
  intro x hx
  rw [List.mem_append, List.mem_map] at hx
  rcases hx with hx | ⟨i, -, rfl⟩
  · exact h x hx
  · intro e he
    simp [Event.callError] at he

/-- The log lines of items contain no call. -/
theorem filterMap_call_items (items : List Song) :
    (items.map (Event.Printf : Song → Event ε)).filterMap Event.call = [] := by
  induction items with
  | nil => rfl
  | cons i rest ih => simp [Event.call]

/-- The calls of a trace extended by a call. -/
theorem calls_snoc_some {tr : List (Event ε)} {ev : Event ε} {k : Call}
    (h : ev.call = some k) :
    (tr ++ [ev]).filterMap Event.call = tr.filterMap Event.call ++ [k] := by
  simp [List.filterMap_append, List.filterMap_cons, h]

/-- The calls of a trace extended by an event that is not a call. -/
theorem calls_snoc_none {tr : List (Event ε)} {ev : Event ε} (h : ev.call = none) :
    (tr ++ [ev]).filterMap Event.call = tr.filterMap Event.call := by
  simp [List.filterMap_append, List.filterMap_cons, h]

/-- The shape of every run of `main`: either no call in the trace failed, or
the trace is calls that succeeded (and log lines), then one failed call, then
the fatal log of its error, and the process exits with code 1.  In both cases
the calls made are an initial part of the five steps, in order. -/
theorem main_shape (D : Driver σ ε) (s0 : σ) :
    (NoFail (main D s0).1.trace ∨
      ∃ good c msg e, (main D s0).1.trace = good ++ [c, Event.Fatal msg e] ∧
        NoFail good ∧ c.callError = some (some e) ∧ (main D s0).2 = Exit.exited 1) ∧
    (main D s0).1.trace.filterMap Event.call <+:
      [Call.CreateSession, Call.ExecStmt, Call.ExecStmt, Call.Exec, Call.Select] := by
  have ok0 : NoFail ([] : List (Event ε)) := by
    intro ev hev
    simp at hev
  have hfatal : ∀ (msg : String) (e : ε) (w : World σ ε),
      (Fatal msg e w).trace = w.trace ++ [Event.Fatal msg e] := fun _ _ _ => rfl
  have hsnoc : ∀ (good : List (Event ε)) (c f : Event ε),
      good ++ [c] ++ [f] = good ++ [c, f] := by
    intro good c f
    simp
  have cF : ∀ (tr : List (Event ε)) (msg : String) (e : ε),
      (tr ++ [Event.Fatal msg e]).filterMap Event.call = tr.filterMap Event.call :=
    fun _ _ _ => calls_snoc_none rfl
  have cP : ∀ (tr : List (Event ε)) (v : PanicValue ε),
      (tr ++ [Event.Panic v]).filterMap Event.call = tr.filterMap Event.call :=
    fun _ _ => calls_snoc_none rfl
  have cL : ∀ (tr : List (Event ε)) (msg : String),
      (tr ++ [Event.Println msg]).filterMap Event.call = tr.filterMap Event.call :=
    fun _ _ => calls_snoc_none rfl
  have cC : ∀ (tr : List (Event ε)),
      (tr ++ [Event.Close]).filterMap Event.call = tr.filterMap Event.call :=
    fun _ => calls_snoc_none rfl
  unfold main
  simp only []
  split
  next w1 e1 h1 =>
    obtain ⟨c1, t1, ce1, ck1⟩ := WrapSession_trace h1
    refine ⟨Or.inr ⟨[], c1, "Failed to wrap session: ", e1, ?_, ok0, ce1, rfl⟩, ?_⟩
    · show (Fatal _ e1 w1).trace = _
      rw [hfatal, t1, hsnoc]
    · show (Fatal _ e1 w1).trace.filterMap Event.call <+: _
      rw [hfatal, t1, cF, calls_snoc_some ck1]
      exact ⟨_, rfl⟩
  next w1 h1 =>
    obtain ⟨c1, t1, ce1, ck1⟩ := WrapSession_trace h1
    have p1 : (Println "ScyllaDB Connected Successfully" w1).trace =
        w1.trace ++ [Event.Println "ScyllaDB Connected Successfully"] := rfl
    have ok1 : NoFail (Println "ScyllaDB Connected Successfully" w1).trace := by
      rw [p1, t1]
      refine NoFail_snoc (NoFail_snoc ok0 ?_) ?_
      · simp [ce1]
      · simp [Event.callError]
    have k1 : (Println "ScyllaDB Connected Successfully" w1).trace.filterMap Event.call =
        [Call.CreateSession] := by
      rw [p1, t1, cL, calls_snoc_some ck1]
      rfl
    split
    next w2 e2 h2 =>
      obtain ⟨c2, t2, ce2, ck2⟩ := CreateKeySpaceIfNotExist_trace h2
      refine ⟨Or.inr ⟨_, c2, "create keyspace:", e2, ?_, ok1, ce2, rfl⟩, ?_⟩
      · show (Fatal _ e2 w2).trace = _
        rw [hfatal, t2, hsnoc]
      · show (Fatal _ e2 w2).trace.filterMap Event.call <+: _
        rw [hfatal, t2, cF, calls_snoc_some ck2, k1]
        exact ⟨_, rfl⟩
    next w2 h2 =>
      obtain ⟨c2, t2, ce2, ck2⟩ := CreateKeySpaceIfNotExist_trace h2
      have ok2 : NoFail w2.trace := by
        rw [t2]
        exact NoFail_snoc ok1 (by simp [ce2])
      have k2 : w2.trace.filterMap Event.call = [Call.CreateSession, Call.ExecStmt] := by
        rw [t2, calls_snoc_some ck2, k1]
        rfl
      split
      next w3 tbl e3 h3 =>
        obtain ⟨⟨c3, t3, ce3, ck3⟩, -⟩ := CreateTableIfNotExist_trace h3
        refine ⟨Or.inr ⟨_, c3, "create table:", e3, ?_, ok2, ce3, rfl⟩, ?_⟩
        · show (Fatal _ e3 w3).trace = _
          rw [hfatal, t3, hsnoc]
        · show (Fatal _ e3 w3).trace.filterMap Event.call <+: _
          rw [hfatal, t3, cF, calls_snoc_some ck3, k2]
          exact ⟨_, rfl⟩
      next w3 tbl h3 =>
        obtain ⟨⟨c3, t3, ce3, ck3⟩, rfl⟩ := CreateTableIfNotExist_trace h3
        have ok3 : NoFail w3.trace := by
          rw [t3]
          exact NoFail_snoc ok2 (by simp [ce3])
        have k3 : w3.trace.filterMap Event.call =
            [Call.CreateSession, Call.ExecStmt, Call.ExecStmt] := by
          rw [t3, calls_snoc_some ck3, k2]
          rfl
        split
        next w4 v h4 =>
          have t4 := InsertNewSong_trace_panic h4
          refine ⟨Or.inl ?_, ?_⟩
          · show NoFail (w4.trace ++ [Event.Panic v])
            rw [t4]
            exact NoFail_snoc ok3 (by simp [Event.callError])
          · show (w4.trace ++ [Event.Panic v]).filterMap Event.call <+: _
            rw [t4, cP, k3]
            exact ⟨_, rfl⟩
        next w4 e4 h4 =>
          obtain ⟨c4, t4, ce4, ck4⟩ := InsertNewSong_trace_ret h4
          refine ⟨Or.inr ⟨_, c4, "Insert ExecRelease() failed:", e4, ?_, ok3, ce4, rfl⟩, ?_⟩
          · show (Fatal _ e4 w4).trace = _
            rw [hfatal, t4, hsnoc]
          · show (Fatal _ e4 w4).trace.filterMap Event.call <+: _
            rw [hfatal, t4, cF, calls_snoc_some ck4, k3]
            exact ⟨_, rfl⟩
        next w4 h4 =>
          obtain ⟨c4, t4, ce4, ck4⟩ := InsertNewSong_trace_ret h4
          have ok4 : NoFail w4.trace := by
            rw [t4]
            exact NoFail_snoc ok3 (by simp [ce4])
          have k4 : w4.trace.filterMap Event.call =
              [Call.CreateSession, Call.ExecStmt, Call.ExecStmt, Call.Exec] := by
            rw [t4, calls_snoc_some ck4, k3]
            rfl
          split
          next w5 v h5 =>
            have t5 := GetSong_trace_panic h5
            refine ⟨Or.inl ?_, ?_⟩
            · show NoFail (w5.trace ++ [Event.Panic v])
              rw [t5]
              exact NoFail_snoc ok4 (by simp [Event.callError])
            · show (w5.trace ++ [Event.Panic v]).filterMap Event.call <+: _
              rw [t5, cP, k4]
              exact ⟨_, rfl⟩
          next w5 items e5 h5 =>
            obtain ⟨c5, t5, ce5, ck5⟩ := GetSong_trace_ret h5
            refine ⟨Or.inr ⟨_, c5, "Get ExecRelease() failed:", e5, ?_, ok4, ce5, rfl⟩, ?_⟩
            · show (Fatal _ e5 w5).trace = _
              rw [hfatal, t5, hsnoc]
            · show (Fatal _ e5 w5).trace.filterMap Event.call <+: _
              rw [hfatal, t5, cF, calls_snoc_some ck5, k4]
              exact ⟨_, rfl⟩
          next w5 items h5 =>
            obtain ⟨c5, t5, ce5, ck5⟩ := GetSong_trace_ret h5
            have ok5 : NoFail w5.trace := by
              rw [t5]
              exact NoFail_snoc ok4 (by simp [ce5])
            have k5 : w5.trace.filterMap Event.call =
                [Call.CreateSession, Call.ExecStmt, Call.ExecStmt, Call.Exec, Call.Select] := by
              rw [t5, calls_snoc_some ck5, k4]
              rfl
            have t6 : (Session.Close D (printItems items w5)).trace =
                w5.trace ++ items.map Event.Printf ++ [Event.Close] := by
              show (printItems items w5).trace ++ [Event.Close] = _
              rw [printItems_trace]
            refine ⟨Or.inl ?_, ?_⟩
            · show NoFail (Session.Close D (printItems items w5)).trace
              rw [t6]
              exact NoFail_snoc (NoFail_items ok5 items) (by simp [Event.callError])
            · show (Session.Close D (printItems items w5)).trace.filterMap Event.call <+: _
              rw [t6, cC, List.filterMap_append, filterMap_call_items, k5]
              exact ⟨[], rfl⟩

/-- In a trace made of events without failed call, then a failed call, then
its fatal log, the only failed call is that one and what follows it is the
fatal log. -/
theorem failed_call_position {good : List (Event ε)} {c : Event ε} {msg : String} {e : ε}
    (hgood : NoFail good) (hc : c.callError = some (some e)) :
    ∀ (pre : List (Event ε)) (ev : Event ε) (post : List (Event ε)) (e' : ε),
      good ++ [c, Event.Fatal msg e] = pre ++ ev :: post →
      ev.callError = some (some e') → post = [Event.Fatal msg e] ∧ e' = e := by
  induction good with
  | nil =>
    intro pre ev post e' h hev
    cases pre with
    | nil =>
      simp only [List.nil_append, List.cons.injEq] at h
      obtain ⟨rfl, rfl⟩ := h
      rw [hc] at hev
      simp only [Option.some.injEq] at hev
      exact ⟨rfl, hev.symm⟩
    | cons x pre' =>
      cases pre' with
      | nil =>
        simp only [List.nil_append, List.cons_append, List.cons.injEq] at h
        obtain ⟨-, rfl, -⟩ := h
        simp [Event.callError] at hev
      | cons y pre'' =>
        simp at h
  | cons g gs ih =>
    intro pre ev post e' h hev
    cases pre with
    | nil =>
      simp only [List.cons_append, List.nil_append, List.cons.injEq] at h
      obtain ⟨rfl, -⟩ := h
      exact absurd hev (hgood g (List.mem_cons_self _ _) e')
    | cons x pre' =>
      simp only [List.cons_append, List.cons.injEq] at h
      exact ih (fun a ha => hgood a (List.mem_cons_of_mem _ ha)) pre' ev post e' h.2 hev

/-- C7: `main` is fail-fast.  In every run, against every driver: whenever a
call to the session (connect, ensure keyspace, ensure table, write, read)
returned an error `e`, what follows it in the trace is exactly the fatal log
of `e`, so no later statement is issued, and the process exits with code 1;
every call in the trace is preceded only by calls that returned nil; and the
calls made are an initial part of connect, keyspace statement, table
statement, insert, select, in that order. -/
theorem main_fail_fast (D : Driver σ ε) (s0 : σ) :
    (∀ (pre : List (Event ε)) (ev : Event ε) (post : List (Event ε)) (e : ε),
      (main D s0).1.trace = pre ++ ev :: post → ev.callError = some (some e) →
      (∃ msg, post = [Event.Fatal msg e]) ∧ (main D s0).2 = Exit.exited 1) ∧
    (∀ (pre : List (Event ε)) (ev : Event ε) (post : List (Event ε)),
      (main D s0).1.trace = pre ++ ev :: post → ev.callError ≠ none → NoFail pre) ∧
    (main D s0).1.trace.filterMap Event.call <+:
      [Call.CreateSession, Call.ExecStmt, Call.ExecStmt, Call.Exec, Call.Select] := by
  have key : ∀ (pre : List (Event ε)) (ev : Event ε) (post : List (Event ε)) (e : ε),
      (main D s0).1.trace = pre ++ ev :: post → ev.callError = some (some e) →
      (∃ msg, post = [Event.Fatal msg e]) ∧ (main D s0).2 = Exit.exited 1 := by
    intro pre ev post e h hev
    rcases (main_shape D s0).1 with hno | ⟨good, c, msg, e0, htr, hgood, hc, hexit⟩
    · exact absurd hev (hno ev (by rw [h]; simp) e)
    · rw [htr] at h
      obtain ⟨hpost, he⟩ := failed_call_position hgood hc pre ev post e h hev
      exact ⟨⟨msg, by rw [hpost, he]⟩, hexit⟩
  refine ⟨key, ?_, (main_shape D s0).2⟩
  intro pre ev post h hev x hx e hxe
  obtain ⟨a, b, rfl⟩ := List.append_of_mem hx
  rw [List.append_assoc, List.cons_append] at h
  obtain ⟨⟨msg, hpost⟩, -⟩ := key a x (b ++ ev :: post) e h hxe
  cases b with
  | nil =>
    simp only [List.nil_append, List.cons.injEq] at hpost
    obtain ⟨rfl, -⟩ := hpost
    exact hev rfl
  | cons y b' =>
    simp at hpost

/-- Releases of a trace extended by one event. -/
theorem closeCount_snoc (tr : List (Event ε)) (ev : Event ε) :
    closeCount (tr ++ [ev]) = closeCount tr + (if ev.isClose = true then 1 else 0) := by
  simp [closeCount, List.countP_append, List.countP_cons]

/-- A call is not a release. -/
theorem isClose_of_call {ev : Event ε} {k : Call} (h : ev.call = some k) :
    ev.isClose = false := by
  cases ev <;> simp [Event.call, Event.isClose] at h ⊢

/-- Releases of a trace extended by a call. -/
theorem closeCount_call {tr : List (Event ε)} {ev : Event ε} {k : Call}
    (h : ev.call = some k) : closeCount (tr ++ [ev]) = closeCount tr := by
  rw [closeCount_snoc, isClose_of_call h]
  simp

/-- The log lines of items release nothing. -/
theorem closeCount_items (tr : List (Event ε)) (items : List Song) :
    closeCount (tr ++ items.map Event.Printf) = closeCount tr := by
  induction items generalizing tr with
  | nil => simp
  | cons i rest ih =>
    rw [List.map_cons, ← List.singleton_append, ← List.append_assoc, ih, closeCount_snoc]
    simp [Event.isClose]

/-- In every run of `main`, against every driver, the session is released
once when `main` returns and not at all on any other exit. -/
theorem main_closeCount (D : Driver σ ε) (s0 : σ) :
    ((main D s0).2 = Exit.returned ∧ closeCount (main D s0).1.trace = 1) ∨
      ((main D s0).2 ≠ Exit.returned ∧ closeCount (main D s0).1.trace = 0) := by
  have zF : ∀ (w : World σ ε) (msg : String) (e : ε),
      closeCount (Fatal msg e w).trace = closeCount w.trace := by
    intro w msg e
    show closeCount (w.trace ++ [Event.Fatal msg e]) = _
    rw [closeCount_snoc]
    simp [Event.isClose]
  have zP : ∀ (tr : List (Event ε)) (v : PanicValue ε),
      closeCount (tr ++ [Event.Panic v]) = closeCount tr := by
    intro tr v
    rw [closeCount_snoc]
    simp [Event.isClose]
  unfold main
  simp only []
  split
  next w1 e1 h1 =>
    obtain ⟨c1, t1, -, ck1⟩ := WrapSession_trace h1
    refine Or.inr ⟨fun h => Exit.noConfusion h, ?_⟩
    show closeCount (Fatal _ e1 w1).trace = 0
    rw [zF, t1, closeCount_call ck1]
    rfl
  next w1 h1 =>
    obtain ⟨c1, t1, -, ck1⟩ := WrapSession_trace h1
    have z1 : closeCount (Println "ScyllaDB Connected Successfully" w1).trace = 0 := by
      show closeCount (w1.trace ++ [Event.Println "ScyllaDB Connected Successfully"]) = 0
      rw [closeCount_snoc, t1, closeCount_call ck1]
      rfl
    split
    next w2 e2 h2 =>
      obtain ⟨c2, t2, -, ck2⟩ := CreateKeySpaceIfNotExist_trace h2
      refine Or.inr ⟨fun h => Exit.noConfusion h, ?_⟩
      show closeCount (Fatal _ e2 w2).trace = 0
      rw [zF, t2, closeCount_call ck2, z1]
    next w2 h2 =>
      obtain ⟨c2, t2, -, ck2⟩ := CreateKeySpaceIfNotExist_trace h2
      have z2 : closeCount w2.trace = 0 := by
        rw [t2, closeCount_call ck2, z1]
      split
      next w3 tbl e3 h3 =>
        obtain ⟨⟨c3, t3, -, ck3⟩, -⟩ := CreateTableIfNotExist_trace h3
        refine Or.inr ⟨fun h => Exit.noConfusion h, ?_⟩
        show closeCount (Fatal _ e3 w3).trace = 0
        rw [zF, t3, closeCount_call ck3, z2]
      next w3 tbl h3 =>
        obtain ⟨⟨c3, t3, -, ck3⟩, rfl⟩ := CreateTableIfNotExist_trace h3
        have z3 : closeCount w3.trace = 0 := by
          rw [t3, closeCount_call ck3, z2]
        split
        next w4 v h4 =>
          refine Or.inr ⟨fun h => Exit.noConfusion h, ?_⟩
          show closeCount (w4.trace ++ [Event.Panic v]) = 0
          rw [zP, InsertNewSong_trace_panic h4, z3]
        next w4 e4 h4 =>
          obtain ⟨c4, t4, -, ck4⟩ := InsertNewSong_trace_ret h4
          refine Or.inr ⟨fun h => Exit.noConfusion h, ?_⟩
          show closeCount (Fatal _ e4 w4).trace = 0
          rw [zF, t4, closeCount_call ck4, z3]
        next w4 h4 =>
          obtain ⟨c4, t4, -, ck4⟩ := InsertNewSong_trace_ret h4
          have z4 : closeCount w4.trace = 0 := by
            rw [t4, closeCount_call ck4, z3]
          split
          next w5 v h5 =>
            refine Or.inr ⟨fun h => Exit.noConfusion h, ?_⟩
            show closeCount (w5.trace ++ [Event.Panic v]) = 0
            rw [zP, GetSong_trace_panic h5, z4]
          next w5 items e5 h5 =>
            obtain ⟨c5, t5, -, ck5⟩ := GetSong_trace_ret h5
            refine Or.inr ⟨fun h => Exit.noConfusion h, ?_⟩
            show closeCount (Fatal _ e5 w5).trace = 0
            rw [zF, t5, closeCount_call ck5, z4]
          next w5 items h5 =>
            obtain ⟨c5, t5, -, ck5⟩ := GetSong_trace_ret h5
            refine Or.inl ⟨rfl, ?_⟩
            show closeCount ((printItems items w5).trace ++ [Event.Close]) = 1
            rw [closeCount_snoc, printItems_trace, closeCount_items, t5, closeCount_call ck5, z4]
            rfl

/-- C8 fails on the code: when the keyspace statement, the table statement,
the insert or the select fails, the run ends through `log.Fatal` with exit
code 1 and the session is never released; only the run in which every step
succeeds releases it, once.  Evaluated on the modelled store, with the step
that fails chosen by the schedule of outcomes. -/
theorem main_failure_leaves_session_open :
    ((main (storeDriver sampleParse) { rows := [], pending := [none, some "rejected"] }).2 =
        Exit.exited 1 ∧
      closeCount (main (storeDriver sampleParse)
        { rows := [], pending := [none, some "rejected"] }).1.trace = 0) ∧
    ((main (storeDriver sampleParse)
        { rows := [], pending := [none, none, some "rejected"] }).2 = Exit.exited 1 ∧
      closeCount (main (storeDriver sampleParse)
        { rows := [], pending := [none, none, some "rejected"] }).1.trace = 0) ∧
    ((main (storeDriver sampleParse)
        { rows := [], pending := [none, none, none, some "timeout"] }).2 = Exit.exited 1 ∧
      closeCount (main (storeDriver sampleParse)
        { rows := [], pending := [none, none, none, some "timeout"] }).1.trace = 0) ∧
    ((main (storeDriver sampleParse)
        { rows := [], pending := [none, none, none, none, some "timeout"] }).2 =
        Exit.exited 1 ∧
      closeCount (main (storeDriver sampleParse)
        { rows := [], pending := [none, none, none, none, some "timeout"] }).1.trace = 0) ∧
    ((main (storeDriver sampleParse) { rows := [], pending := [] }).2 = Exit.returned ∧
      closeCount (main (storeDriver sampleParse) { rows := [], pending := [] }).1.trace = 1) := by
  refine ⟨⟨by rfl, by rfl⟩, ⟨by rfl, by rfl⟩, ⟨by rfl, by rfl⟩, ⟨by rfl, by rfl⟩,
    ⟨by rfl, by rfl⟩⟩

end GoScylla
